import Mathlib

/-!
SwivelGrid virtualization: a shallow embedding

This file embeds the virtualization subsystem of the SwivelGrid data-grid
widget (the `TableVirtualizer` extension for fixed-extent table mode and the
`GridVirtualizer` extension for adaptive card/grid mode) and proves the
spec-level properties of its range computation, height caching, scroll
gating, configuration setters and scroll-to-index behaviour.

Pixel quantities (scroll offsets, heights, widths, gaps) are modelled as
rationals `ℚ`; item indices and counts as integers `ℤ`.  JavaScript's
`Math.floor` / `Math.ceil` on nonnegative real quantities become `Int.floor`
/ `Int.ceil` on `ℚ`.  A JavaScript `Map` is modelled as an association list
in insertion order, where re-setting an existing key updates it in place and
a fresh key is appended at the end.  A possibly non-numeric JavaScript
argument is modelled as `Option ℚ` (`none` = the `typeof v === 'number'`
test fails).
-/

namespace SwivelGrid

/-- Embeds `VisibleRange` `{start, end}`: a half-open item-index interval.
The source's `end` field is called `stop` here (`end` is a Lean keyword). -/
structure VisibleRange where
  start : ℤ
  stop : ℤ
deriving DecidableEq

/-- Alignment argument of `scrollToRow` / `scrollToCard`
(`'start' | 'center' | 'end'`; the source's `'end'` is `stop` here). -/
inductive ScrollPosition
  | start
  | center
  | stop
deriving DecidableEq

namespace TableVirtualizer

/-- Embeds `TableVirtualizer.calculateVisibleRange(scrollTop)` (fixed row extent).
`containerHeight` is the measured `clientHeight` of the scroll container
(the source falls back to `400` when no container is attached). -/
def calculateVisibleRange (rowHeight containerHeight : ℚ) (overscan totalRows : ℤ)
    (scrollTop : ℚ) : VisibleRange :=
  let startIndex : ℤ := ⌊scrollTop / rowHeight⌋
  let visibleCount : ℤ := ⌈containerHeight / rowHeight⌉
  ⟨max 0 (startIndex - overscan), min totalRows (startIndex + visibleCount + overscan)⟩

/-- The largest scroll offset reachable in table mode, as used by the clamp in
`TableVirtualizer.scrollToRow`: `max(0, totalRows * rowHeight - containerHeight)`. -/
def maxScrollFixed (rowHeight containerHeight : ℚ) (totalRows : ℤ) : ℚ :=
  max 0 (totalRows * rowHeight - containerHeight)

/-- The initial (pre-scroll) visible range computed by
`TableVirtualizer.renderVirtualizedTable(rows, ...)`: the dataset-size branch
(`> 100000` ultra-large, `> 50000` very large, otherwise plain
`visibleCount + overscan * 2`) picks `maxInitialRender`, and the range is
`{start: 0, end: min(maxInitialRender, totalRows)}`. -/
def renderVirtualizedTableInitialRange (totalRows : ℤ) (rowHeight0 : ℚ) (overscan : ℤ)
    (containerHeight : ℚ) : VisibleRange :=
  let rowHeight : ℚ := if 100000 < totalRows then max 30 rowHeight0 else rowHeight0
  let initialVisibleCount : ℤ := ⌈containerHeight / rowHeight⌉
  let maxInitialRender : ℤ :=
    if 100000 < totalRows then min 15 (initialVisibleCount + 5)
    else if 50000 < totalRows then min 25 (initialVisibleCount + 10)
    else initialVisibleCount + overscan * 2
  ⟨0, min maxInitialRender totalRows⟩

/-- Embeds `TableVirtualizer.scrollToRow(rowIndex, position)`: an out-of-range
`rowIndex` returns early leaving the scroll offset unchanged; otherwise the
alignment offset is computed and clamped to
`[0, totalRows * rowHeight - containerHeight]` via `max(0, min(...))`. -/
def scrollToRow (totalRows : ℤ) (rowHeight containerHeight currentScrollTop : ℚ)
    (rowIndex : ℤ) (position : ScrollPosition) : ℚ :=
  if rowIndex < 0 ∨ totalRows ≤ rowIndex then currentScrollTop
  else
    let raw : ℚ :=
      match position with
      | .center => rowIndex * rowHeight - containerHeight / 2 + rowHeight / 2
      | .stop => rowIndex * rowHeight - containerHeight + rowHeight
      | .start => rowIndex * rowHeight
    max 0 (min raw (totalRows * rowHeight - containerHeight))

/-- Embeds `TableVirtualizer.setRowHeight(height)`: stored only when numeric and
strictly positive; otherwise the previous value is retained. -/
def setRowHeight (rowHeight : ℚ) (height : Option ℚ) : ℚ :=
  match height with
  | some h => if 0 < h then h else rowHeight
  | none => rowHeight

/-- Embeds `TableVirtualizer.setOverscan(count)`: stored when numeric and
nonnegative (zero is accepted); otherwise the previous value is retained. -/
def setOverscan (overscan : ℚ) (count : Option ℚ) : ℚ :=
  match count with
  | some c => if 0 ≤ c then c else overscan
  | none => overscan

/-- The mutable state consulted by the scroll handler's frame callback:
the last offset a recomputation was performed for, and the current range. -/
structure ScrollState where
  lastScrollTop : ℚ
  visibleRange : VisibleRange
deriving DecidableEq

/-- The frame-aligned callback body of `TableVirtualizer._handleScroll`:
gating threshold is a full `rowHeight` when `totalRows > 100000`, half a
`rowHeight` otherwise; only when `|scrollTop - lastScrollTop|` strictly
exceeds it is the range recomputed and `lastScrollTop` updated.  The `Bool`
records whether a recomputation was invoked. -/
def handleScrollFrame (rowHeight containerHeight : ℚ) (overscan totalRows : ℤ)
    (s : ScrollState) (scrollTop : ℚ) : ScrollState × Bool :=
  let threshold : ℚ := if 100000 < totalRows then rowHeight else rowHeight / 2
  if threshold < |scrollTop - s.lastScrollTop| then
    (⟨scrollTop, calculateVisibleRange rowHeight containerHeight overscan totalRows scrollTop⟩,
      true)
  else (s, false)

end TableVirtualizer

namespace GridVirtualizer

/-- One `Map.prototype.set` step on the height cache: setting an existing key
updates its value in place (insertion order kept), a fresh key is appended. -/
def mapSet (m : List (ℤ × ℚ)) (key : ℤ) (value : ℚ) : List (ℤ × ℚ) :=
  if key ∈ m.map Prod.fst then
    m.map (fun p => if p.1 = key then (key, value) else p)
  else m ++ [(key, value)]

/-- The measurement loop of `GridVirtualizer.cacheVisibleCardHeights`:
each measured `(index, offsetHeight)` pair is written into the cache with
`Map.set`, in order. -/
def insertAll (heightCache : List (ℤ × ℚ)) (measured : List (ℤ × ℚ)) : List (ℤ × ℚ) :=
  measured.foldl (fun m p => mapSet m p.1 p.2) heightCache

/-- Embeds `GridVirtualizer.cacheVisibleCardHeights()`: after the batch of
measurements is written, if the cache holds more than 1000 entries the first
`size - 500` entries in insertion order (`entries.slice(0, entries.length - 500)`)
are deleted, keeping the newest 500. -/
def cacheVisibleCardHeights (heightCache : List (ℤ × ℚ)) (measured : List (ℤ × ℚ)) :
    List (ℤ × ℚ) :=
  let cache := insertAll heightCache measured
  if 1000 < cache.length then cache.drop (cache.length - 500) else cache

/-- The row-grouping loop of `GridVirtualizer.getAverageRowHeight`: walks the
cached heights in insertion order carrying `currentRowMaxHeight` and
`cardsInCurrentRow` (both starting at 0), closing a row every
`columnsPerRow` entries with value `currentRowMaxHeight + gap`, and closing
the trailing partial row if nonempty. -/
def rowGroupHeights (columnsPerRow : ℤ) (gap : ℚ) :
    List ℚ → ℚ → ℤ → List ℚ
  | [], currentRowMaxHeight, cardsInCurrentRow =>
      if 0 < cardsInCurrentRow then [currentRowMaxHeight + gap] else []
  | h :: t, currentRowMaxHeight, cardsInCurrentRow =>
      if cardsInCurrentRow = columnsPerRow then
        (currentRowMaxHeight + gap) :: rowGroupHeights columnsPerRow gap t h 1
      else
        rowGroupHeights columnsPerRow gap t (max currentRowMaxHeight h) (cardsInCurrentRow + 1)

/-- The average described by the grouping loop: mean over the grouped row
heights (`sum / length`; in the source a 0-length list yields `NaN`, which is
falsy exactly like the `0` that `ℚ` division-by-zero yields here). -/
def rowGroupAverage (columnsPerRow : ℤ) (gap : ℚ) (heights : List ℚ) : ℚ :=
  (rowGroupHeights columnsPerRow gap heights 0 0).sum /
    ((rowGroupHeights columnsPerRow gap heights 0 0).length : ℚ)

/-- Embeds `GridVirtualizer.getAverageRowHeight()`: `estimatedCardHeight + gap` when
the cache is empty; otherwise the mean of the grouped row heights, except
that the source's `return average || (this.estimatedCardHeight + this.gap)`
also falls back when the computed mean is `0` (or `NaN`). -/
def getAverageRowHeight (heightCache : List (ℤ × ℚ)) (columnsPerRow : ℤ)
    (gap estimatedCardHeight : ℚ) : ℚ :=
  if heightCache = [] then estimatedCardHeight + gap
  else
    let average := rowGroupAverage columnsPerRow gap (heightCache.map Prod.snd)
    if average = 0 then estimatedCardHeight + gap else average

/-- Embeds `GridVirtualizer.calculateVisibleRange(scrollTop)` (adaptive mode):
estimates the first visible row and the visible row count from
`getAverageRowHeight`, converts rows to card indices via `columnsPerRow`,
and applies `overscan` on both sides. -/
def calculateVisibleRange (heightCache : List (ℤ × ℚ)) (columnsPerRow : ℤ)
    (gap estimatedCardHeight containerHeight : ℚ) (overscan totalCards : ℤ)
    (scrollTop : ℚ) : VisibleRange :=
  let avgRowHeight := getAverageRowHeight heightCache columnsPerRow gap estimatedCardHeight
  let estimatedStartRow : ℤ := ⌊scrollTop / avgRowHeight⌋
  let estimatedVisibleRows : ℤ := ⌈containerHeight / avgRowHeight⌉ + 2
  ⟨max 0 (estimatedStartRow * columnsPerRow - overscan),
    min totalCards ((estimatedStartRow + estimatedVisibleRows) * columnsPerRow + overscan)⟩

/-- The largest scroll offset reachable in grid mode, as used by the clamp in
`GridVirtualizer.scrollToCard`:
`max(0, ceil(totalCards / columnsPerRow) * avgRowHeight - containerHeight)`. -/
def maxScrollGrid (totalCards columnsPerRow : ℤ) (avgRowHeight containerHeight : ℚ) : ℚ :=
  max 0 ((⌈(totalCards : ℚ) / (columnsPerRow : ℚ)⌉ : ℚ) * avgRowHeight - containerHeight)

/-- Embeds `GridVirtualizer.scrollToCard(cardIndex, position)`: an out-of-range
`cardIndex` returns early leaving the scroll offset unchanged; otherwise the
alignment offset for the card's row (at `getAverageRowHeight` per row) is
computed and clamped to `[0, ceil(totalCards/columnsPerRow) * avg - containerHeight]`
via `max(0, min(...))`. -/
def scrollToCard (heightCache : List (ℤ × ℚ)) (totalCards columnsPerRow : ℤ)
    (gap estimatedCardHeight containerHeight currentScrollTop : ℚ)
    (cardIndex : ℤ) (position : ScrollPosition) : ℚ :=
  if cardIndex < 0 ∨ totalCards ≤ cardIndex then currentScrollTop
  else
    let rowIndex : ℤ := ⌊(cardIndex : ℚ) / (columnsPerRow : ℚ)⌋
    let avgRowHeight := getAverageRowHeight heightCache columnsPerRow gap estimatedCardHeight
    let raw : ℚ :=
      match position with
      | .center => rowIndex * avgRowHeight - containerHeight / 2 + avgRowHeight / 2
      | .stop => rowIndex * avgRowHeight - containerHeight + avgRowHeight
      | .start => rowIndex * avgRowHeight
    max 0 (min raw
      ((⌈(totalCards : ℚ) / (columnsPerRow : ℚ)⌉ : ℚ) * avgRowHeight - containerHeight))

/-- Embeds `GridVirtualizer.setEstimatedCardHeight(height)`: stored only when
numeric and strictly positive; otherwise the previous value is retained. -/
def setEstimatedCardHeight (estimatedCardHeight : ℚ) (height : Option ℚ) : ℚ :=
  match height with
  | some h => if 0 < h then h else estimatedCardHeight
  | none => estimatedCardHeight

/-- Embeds `GridVirtualizer.setMinCardWidth(width)`: stored only when numeric and
strictly positive; otherwise the previous value is retained. -/
def setMinCardWidth (minCardWidth : ℚ) (width : Option ℚ) : ℚ :=
  match width with
  | some w => if 0 < w then w else minCardWidth
  | none => minCardWidth

/-- Embeds `GridVirtualizer.setGap(gap)`: stored when numeric and nonnegative
(zero is accepted); otherwise the previous value is retained. -/
def setGap (gap : ℚ) (value : Option ℚ) : ℚ :=
  match value with
  | some g => if 0 ≤ g then g else gap
  | none => gap

/-- Embeds `GridVirtualizer.setOverscan(count)`: stored when numeric and
nonnegative (zero is accepted); otherwise the previous value is retained. -/
def setOverscan (overscan : ℚ) (count : Option ℚ) : ℚ :=
  match count with
  | some c => if 0 ≤ c then c else overscan
  | none => overscan

end GridVirtualizer

namespace TableVirtualizer

/-- Follows the spec's words, not the source (for comparison with
`scrollToRow`): "out-of-range `index` is clamped to `[0, total-1]`;
resulting offset clamped to `[0, maxScrollOffset]`". -/
def scrollToRowSpecClamped (totalRows : ℤ) (rowHeight containerHeight : ℚ)
    (rowIndex : ℤ) (position : ScrollPosition) : ℚ :=
  let clamped : ℤ := max 0 (min rowIndex (totalRows - 1))
  let raw : ℚ :=
    match position with
    | .center => clamped * rowHeight - containerHeight / 2 + rowHeight / 2
    | .stop => clamped * rowHeight - containerHeight + rowHeight
    | .start => clamped * rowHeight
  max 0 (min raw (totalRows * rowHeight - containerHeight))

end TableVirtualizer

/-- A concrete 1000-entry height cache (keys `0..999`, each of extent 1),
used to exercise the eviction step on concrete data. -/
def thousandEntryCache : List (ℤ × ℚ) :=
  (List.range 1000).map (fun (i : ℕ) => ((i : ℤ), (1 : ℚ)))

section Lemmas

/-- Setting a key that is not yet in the cache appends it. -/
lemma mapSet_fresh (m : List (ℤ × ℚ)) (key : ℤ) (value : ℚ)
    (h : key ∉ m.map Prod.fst) :
    GridVirtualizer.mapSet m key value = m ++ [(key, value)] := by
  simp [GridVirtualizer.mapSet, h]

lemma thousandEntryCache_length : thousandEntryCache.length = 1000 := by
  rw [thousandEntryCache, List.length_map, List.length_range]

lemma insertAll_thousand :
    GridVirtualizer.insertAll thousandEntryCache [((1000 : ℤ), (1 : ℚ))]
      = thousandEntryCache ++ [((1000 : ℤ), (1 : ℚ))] := by
  have h : (1000 : ℤ) ∉ thousandEntryCache.map Prod.fst := by
    simp [thousandEntryCache]
    omega
  simp [GridVirtualizer.insertAll, mapSet_fresh _ _ _ h]

/-- The grouping loop emits at least one row height when it starts on a
nonempty list (or with a partially filled row already in hand). -/
lemma rowGroupHeights_ne_nil (columnsPerRow : ℤ) (gap : ℚ) :
    ∀ (hs : List ℚ) (m : ℚ) (c : ℤ), 0 ≤ c → (hs ≠ [] ∨ 0 < c) →
      GridVirtualizer.rowGroupHeights columnsPerRow gap hs m c ≠ [] := by
  intro hs
  induction hs with
  | nil =>
    intro m c _ hor
    have hc : 0 < c := by
      rcases hor with h | h
      · exact absurd rfl h
      · exact h
    simp only [GridVirtualizer.rowGroupHeights, if_pos hc]
    exact List.cons_ne_nil _ _
  | cons h t ih =>
    intro m c hc _
    simp only [GridVirtualizer.rowGroupHeights]
    split
    · exact List.cons_ne_nil _ _
    · exact ih (max m h) (c + 1) (by omega) (Or.inr (by omega))

/-- Every row height the grouping loop emits is at least `gap`, provided the
running maximum and all remaining heights are nonnegative. -/
lemma rowGroupHeights_ge_gap (columnsPerRow : ℤ) (gap : ℚ) :
    ∀ (hs : List ℚ) (m : ℚ) (c : ℤ), 0 ≤ m → (∀ x ∈ hs, 0 ≤ x) →
      ∀ y ∈ GridVirtualizer.rowGroupHeights columnsPerRow gap hs m c, gap ≤ y := by
  intro hs
  induction hs with
  | nil =>
    intro m c hm _ y hy
    simp only [GridVirtualizer.rowGroupHeights] at hy
    split at hy
    · rcases List.mem_singleton.mp hy with rfl
      linarith
    · exact absurd hy (List.not_mem_nil _)
  | cons h t ih =>
    intro m c hm hall y hy
    have hh : 0 ≤ h := hall h (List.mem_cons_self _ _)
    have hall' : ∀ x ∈ t, 0 ≤ x := fun x hx => hall x (List.mem_cons_of_mem _ hx)
    simp only [GridVirtualizer.rowGroupHeights] at hy
    split at hy
    · rcases List.mem_cons.mp hy with rfl | hy'
      · linarith
      · exact ih h 1 hh hall' y hy'
    · exact ih (max m h) (c + 1) (le_max_of_le_left hm) hall' y hy

lemma floor_div_nonneg (x y : ℚ) (hy : 0 < y) (hx : 0 ≤ x) : 0 ≤ ⌊x / y⌋ :=
  Int.le_floor.mpr (by exact_mod_cast div_nonneg hx hy.le)

lemma ceil_div_pos (x y : ℚ) (hy : 0 < y) (hx : 0 < x) : 0 < ⌈x / y⌉ :=
  Int.ceil_pos.mpr (div_pos hx hy)

/-- Within `[0, maxScroll]` in fixed mode, either the scroll offset is pinned
to 0 (degenerate viewport taller than the content) or the start index leaves
room for a full viewport of rows below it. -/
lemma fixed_floor_bound (rowHeight containerHeight scrollTop : ℚ) (totalRows : ℤ)
    (h1 : 0 < rowHeight) (h2 : 0 < containerHeight) (h5 : 0 ≤ scrollTop)
    (h6 : scrollTop ≤ TableVirtualizer.maxScrollFixed rowHeight containerHeight totalRows) :
    ⌊scrollTop / rowHeight⌋ = 0 ∨
      ⌊scrollTop / rowHeight⌋ + ⌈containerHeight / rowHeight⌉ ≤ totalRows := by
  unfold TableVirtualizer.maxScrollFixed at h6
  rcases le_or_lt ((totalRows : ℚ) * rowHeight - containerHeight) 0 with hd | hd
  · left
    rw [max_eq_left hd] at h6
    rw [le_antisymm h6 h5, zero_div, Int.floor_zero]
  · right
    rw [max_eq_right hd.le] at h6
    have hfr : (⌊scrollTop / rowHeight⌋ : ℚ) ≤ scrollTop / rowHeight := Int.floor_le _
    have he : ((totalRows : ℚ) * rowHeight - containerHeight) / rowHeight
        = (totalRows : ℚ) - containerHeight / rowHeight := by
      field_simp
    have hdiv : scrollTop / rowHeight
        ≤ (totalRows : ℚ) - containerHeight / rowHeight := by
      rw [← he]
      gcongr
    have hkey : containerHeight / rowHeight
        ≤ ((totalRows - ⌊scrollTop / rowHeight⌋ : ℤ) : ℚ) := by
      push_cast
      linarith
    have hceil := Int.ceil_le.mpr hkey
    omega

/-- Within `[0, maxScroll]` in grid mode, either the scroll offset is pinned
to 0 or the estimated start row times `columnsPerRow` stays within the
dataset. -/
lemma grid_floor_bound (avg containerHeight scrollTop : ℚ) (totalCards columnsPerRow : ℤ)
    (havg : 0 < avg) (hch : 0 < containerHeight) (hcols : 1 ≤ columnsPerRow)
    (hst : 0 ≤ scrollTop)
    (h6 : scrollTop ≤ GridVirtualizer.maxScrollGrid totalCards columnsPerRow avg
        containerHeight) :
    ⌊scrollTop / avg⌋ = 0 ∨
      ⌊scrollTop / avg⌋ * columnsPerRow ≤ totalCards := by
  unfold GridVirtualizer.maxScrollGrid at h6
  rcases le_or_lt ((⌈(totalCards : ℚ) / (columnsPerRow : ℚ)⌉ : ℚ) * avg - containerHeight) 0
    with hd | hd
  · left
    rw [max_eq_left hd] at h6
    rw [le_antisymm h6 hst, zero_div, Int.floor_zero]
  · right
    rw [max_eq_right hd.le] at h6
    have hcolsQ : (0 : ℚ) < (columnsPerRow : ℚ) := by
      exact_mod_cast lt_of_lt_of_le one_pos hcols
    have h8 : scrollTop / avg < (⌈(totalCards : ℚ) / (columnsPerRow : ℚ)⌉ : ℚ) := by
      rw [div_lt_iff havg]
      linarith
    have h9 : ⌊scrollTop / avg⌋ < ⌈(totalCards : ℚ) / (columnsPerRow : ℚ)⌉ := by
      have hfl := Int.floor_le (scrollTop / avg)
      exact_mod_cast lt_of_le_of_lt hfl h8
    have h10 : (⌈(totalCards : ℚ) / (columnsPerRow : ℚ)⌉ - 1) * columnsPerRow
        ≤ totalCards := by
      have hlt : (⌈(totalCards : ℚ) / (columnsPerRow : ℚ)⌉ : ℚ)
          < (totalCards : ℚ) / (columnsPerRow : ℚ) + 1 := Int.ceil_lt_add_one _
      have h11 : (⌈(totalCards : ℚ) / (columnsPerRow : ℚ)⌉ : ℚ) * (columnsPerRow : ℚ)
          < ((totalCards : ℚ) / (columnsPerRow : ℚ) + 1) * (columnsPerRow : ℚ) :=
        mul_lt_mul_of_pos_right hlt hcolsQ
      have h12 : ((totalCards : ℚ) / (columnsPerRow : ℚ) + 1) * (columnsPerRow : ℚ)
          = (totalCards : ℚ) + (columnsPerRow : ℚ) := by
        field_simp
      have h13 : ((⌈(totalCards : ℚ) / (columnsPerRow : ℚ)⌉ - 1 : ℤ) : ℚ)
          * (columnsPerRow : ℚ) < (totalCards : ℚ) := by
        push_cast
        nlinarith
      have h14 : (⌈(totalCards : ℚ) / (columnsPerRow : ℚ)⌉ - 1) * columnsPerRow
          < totalCards := by
        exact_mod_cast h13
      omega
    have h15 : ⌊scrollTop / avg⌋ * columnsPerRow
        ≤ (⌈(totalCards : ℚ) / (columnsPerRow : ℚ)⌉ - 1) * columnsPerRow :=
      mul_le_mul_of_nonneg_right (by omega) (by omega)
    linarith

end Lemmas

/-- Claim C1 counterexample: in fixed (table) mode with `total = 100000`,
`itemExtent = 30`, `overscan = 2`, `containerExtent = 400`, the initial
visible range computed by `renderVirtualizedTable` is `{0, 24}` (the
`total > 50000` branch, `min(25, visibleCount + 10)`), not the `{0, 15}`
the claim asserts: the ultra-large cap requires `total > 100000`, which a
dataset of exactly 100000 items does not satisfy. -/
theorem renderInitialRange_100000_not_ultra_cap :
    TableVirtualizer.renderVirtualizedTableInitialRange 100000 30 2 400
        = ⟨0, 24⟩ ∧
    (⟨0, 24⟩ : VisibleRange) ≠ ⟨0, 15⟩ := by
  have hc : (⌈(40 : ℚ) / 3⌉ : ℤ) = 14 := by
    rw [Int.ceil_eq_iff]
    norm_num
  constructor
  · simp only [TableVirtualizer.renderVirtualizedTableInitialRange]
    norm_num [hc, min_def]
  · intro h
    exact absurd (congrArg VisibleRange.stop h) (by norm_num)

/-- Claim C1 (amended): at `total = 100000` the very-large branch
(`min(25, visibleCount + 10)`) applies, giving initial range `{0, 24}`;
the ultra-large cap `min(15, visibleCount + 5)` applies only for
`total > 100000`, e.g. at `total = 100001` the initial range is `{0, 15}`. -/
theorem renderInitialRange_scale_branches :
    TableVirtualizer.renderVirtualizedTableInitialRange 100000 30 2 400
        = ⟨0, 24⟩ ∧
    TableVirtualizer.renderVirtualizedTableInitialRange 100001 30 2 400
        = ⟨0, 15⟩ := by
  have hc : (⌈(40 : ℚ) / 3⌉ : ℤ) = 14 := by
    rw [Int.ceil_eq_iff]
    norm_num
  constructor
  · simp only [TableVirtualizer.renderVirtualizedTableInitialRange]
    norm_num [hc, min_def]
  · simp only [TableVirtualizer.renderVirtualizedTableInitialRange]
    norm_num [hc, min_def]

/-- Claim C7: after any call of `cacheVisibleCardHeights` completes (a batch
of `Map.set` insertions followed by the bounded-eviction step), the height
cache holds at most 1000 entries, whatever the incoming cache and batch —
so the bound is preserved by every sequence of such operations. -/
theorem cacheVisibleCardHeights_size_le (heightCache measured : List (ℤ × ℚ)) :
    (GridVirtualizer.cacheVisibleCardHeights heightCache measured).length ≤ 1000 := by
  simp only [GridVirtualizer.cacheVisibleCardHeights]
  split
  · rename_i h
    rw [List.length_drop]
    omega
  · rename_i h
    omega

/-- Claim C10: the fixed-mode range computation is total on arbitrary scroll
input — for every `scrollTop` (negative and beyond-`maxScroll` values
included), positive `rowHeight` and nonnegative `totalRows`, it returns a
range with `start ≥ 0` and `end ≤ totalRows` (totality of the Lean function
models "never throws"). -/
theorem calculateVisibleRange_partial_safety
    (rowHeight containerHeight scrollTop : ℚ) (overscan totalRows : ℤ)
    (hrh : 0 < rowHeight) (ht : 0 ≤ totalRows) :
    0 ≤ (TableVirtualizer.calculateVisibleRange rowHeight containerHeight
          overscan totalRows scrollTop).start ∧
    (TableVirtualizer.calculateVisibleRange rowHeight containerHeight
          overscan totalRows scrollTop).stop ≤ totalRows :=
  ⟨le_max_left _ _, min_le_left _ _⟩

/-- Witness for C10: a negative scroll offset on a 10-row table still yields
`start ≥ 0` and `end ≤ 10`. -/
theorem calculateVisibleRange_partial_safety_witness :
    0 ≤ (TableVirtualizer.calculateVisibleRange 30 400 2 10 (-3000)).start ∧
    (TableVirtualizer.calculateVisibleRange 30 400 2 10 (-3000)).stop ≤ 10 :=
  calculateVisibleRange_partial_safety 30 400 (-3000) 2 10 (by norm_num) (by norm_num)

/-- Claim C3 counterexample: inserting one fresh entry into a 1000-entry
cache makes its size 1001 (> 1000), and the eviction step then keeps only
500 entries — it evicts the oldest 501, not "exactly the oldest 500"
(which would leave 501 entries). -/
theorem heightCache_eviction_counterexample :
    (GridVirtualizer.insertAll thousandEntryCache [((1000 : ℤ), (1 : ℚ))]).length = 1001 ∧
    (GridVirtualizer.cacheVisibleCardHeights thousandEntryCache
        [((1000 : ℤ), (1 : ℚ))]).length = 500 ∧
    1001 - 500 ≠ 500 := by
  have hlen : (GridVirtualizer.insertAll thousandEntryCache
      [((1000 : ℤ), (1 : ℚ))]).length = 1001 := by
    rw [insertAll_thousand, List.length_append, thousandEntryCache_length]
    rfl
  have e2 : GridVirtualizer.cacheVisibleCardHeights thousandEntryCache [((1000 : ℤ), (1 : ℚ))]
      = (GridVirtualizer.insertAll thousandEntryCache [((1000 : ℤ), (1 : ℚ))]).drop
          ((GridVirtualizer.insertAll thousandEntryCache
              [((1000 : ℤ), (1 : ℚ))]).length - 500) := by
    simp only [GridVirtualizer.cacheVisibleCardHeights]
    rw [if_pos]
    rw [hlen]
    norm_num
  refine ⟨hlen, ?_, by norm_num⟩
  rw [e2, List.length_drop, hlen]

/-- Claim C3 (amended): once an insertion batch makes the cache size `n`
exceed 1000, the oldest `n - 500` entries by insertion order are evicted
(not exactly 500): the surviving cache is precisely the newest-500 suffix
of the post-insertion cache, left intact in order. -/
theorem cacheVisibleCardHeights_evicts_oldest
    (heightCache measured : List (ℤ × ℚ))
    (h : 1000 < (GridVirtualizer.insertAll heightCache measured).length) :
    GridVirtualizer.cacheVisibleCardHeights heightCache measured
        = (GridVirtualizer.insertAll heightCache measured).drop
            ((GridVirtualizer.insertAll heightCache measured).length - 500) ∧
    (GridVirtualizer.cacheVisibleCardHeights heightCache measured).length = 500 ∧
    (GridVirtualizer.cacheVisibleCardHeights heightCache measured).IsSuffix
        (GridVirtualizer.insertAll heightCache measured) := by
  have e : GridVirtualizer.cacheVisibleCardHeights heightCache measured
      = (GridVirtualizer.insertAll heightCache measured).drop
          ((GridVirtualizer.insertAll heightCache measured).length - 500) := by
    simp only [GridVirtualizer.cacheVisibleCardHeights]
    exact if_pos h
  refine ⟨e, ?_, ?_⟩
  · rw [e, List.length_drop]
    omega
  · rw [e]
    exact List.drop_suffix _ _

/-- Witness for the amended C3: the concrete 1001-entry overflow is evicted
down to exactly 500 entries. -/
theorem cacheVisibleCardHeights_evicts_oldest_witness :
    (GridVirtualizer.cacheVisibleCardHeights thousandEntryCache
        [((1000 : ℤ), (1 : ℚ))]).length = 500 :=
  (cacheVisibleCardHeights_evicts_oldest thousandEntryCache [((1000 : ℤ), (1 : ℚ))]
    (by rw [insertAll_thousand, List.length_append, thousandEntryCache_length]; norm_num)).2.1

/-- Claim C5 counterexample: `setGap(0)` is accepted and stored (the source
tests `gap >= 0`), whereas the claim says every non-positive assignment is
rejected with the previous value (16) retained. -/
theorem setGap_zero_accepted :
    GridVirtualizer.setGap 16 (some 0) = 0 ∧ (0 : ℚ) ≠ 16 := by
  refine ⟨?_, by norm_num⟩
  simp [GridVirtualizer.setGap]

/-- Claim C5 (amended): the extent setters (`setRowHeight`,
`setEstimatedCardHeight`) and `setMinCardWidth` reject non-positive values;
`setOverscan` (both modes) and `setGap` reject only negative values and
accept zero; every non-numeric assignment is rejected; rejection retains
the previous value without throwing, and accepted values are stored. -/
theorem configuration_setters_validate
    (rowHeight tOverscan estimatedCardHeight minCardWidth gap gOverscan v : ℚ) :
    (0 < v → TableVirtualizer.setRowHeight rowHeight (some v) = v) ∧
    (v ≤ 0 → TableVirtualizer.setRowHeight rowHeight (some v) = rowHeight) ∧
    TableVirtualizer.setRowHeight rowHeight none = rowHeight ∧
    (0 ≤ v → TableVirtualizer.setOverscan tOverscan (some v) = v) ∧
    (v < 0 → TableVirtualizer.setOverscan tOverscan (some v) = tOverscan) ∧
    TableVirtualizer.setOverscan tOverscan none = tOverscan ∧
    (0 < v → GridVirtualizer.setEstimatedCardHeight estimatedCardHeight (some v) = v) ∧
    (v ≤ 0 → GridVirtualizer.setEstimatedCardHeight estimatedCardHeight (some v)
        = estimatedCardHeight) ∧
    GridVirtualizer.setEstimatedCardHeight estimatedCardHeight none = estimatedCardHeight ∧
    (0 < v → GridVirtualizer.setMinCardWidth minCardWidth (some v) = v) ∧
    (v ≤ 0 → GridVirtualizer.setMinCardWidth minCardWidth (some v) = minCardWidth) ∧
    GridVirtualizer.setMinCardWidth minCardWidth none = minCardWidth ∧
    (0 ≤ v → GridVirtualizer.setGap gap (some v) = v) ∧
    (v < 0 → GridVirtualizer.setGap gap (some v) = gap) ∧
    GridVirtualizer.setGap gap none = gap ∧
    (0 ≤ v → GridVirtualizer.setOverscan gOverscan (some v) = v) ∧
    (v < 0 → GridVirtualizer.setOverscan gOverscan (some v) = gOverscan) ∧
    GridVirtualizer.setOverscan gOverscan none = gOverscan := by
  refine ⟨?_, ?_, rfl, ?_, ?_, rfl, ?_, ?_, rfl, ?_, ?_, rfl, ?_, ?_, rfl, ?_, ?_, rfl⟩
  · intro h
    simp only [TableVirtualizer.setRowHeight, if_pos h]
  · intro h
    simp only [TableVirtualizer.setRowHeight, if_neg (not_lt.mpr h)]
  · intro h
    simp only [TableVirtualizer.setOverscan, if_pos h]
  · intro h
    simp only [TableVirtualizer.setOverscan, if_neg (not_le.mpr h)]
  · intro h
    simp only [GridVirtualizer.setEstimatedCardHeight, if_pos h]
  · intro h
    simp only [GridVirtualizer.setEstimatedCardHeight, if_neg (not_lt.mpr h)]
  · intro h
    simp only [GridVirtualizer.setMinCardWidth, if_pos h]
  · intro h
    simp only [GridVirtualizer.setMinCardWidth, if_neg (not_lt.mpr h)]
  · intro h
    simp only [GridVirtualizer.setGap, if_pos h]
  · intro h
    simp only [GridVirtualizer.setGap, if_neg (not_le.mpr h)]
  · intro h
    simp only [GridVirtualizer.setOverscan, if_pos h]
  · intro h
    simp only [GridVirtualizer.setOverscan, if_neg (not_le.mpr h)]

/-- Witness for the amended C5: a non-positive `setRowHeight(0)` is rejected
(40 retained) and a negative `setGap(-1)` is rejected (16 retained). -/
theorem configuration_setters_validate_witness :
    TableVirtualizer.setRowHeight 40 (some 0) = 40 ∧
    GridVirtualizer.setGap 16 (some (-1)) = 16 := by
  constructor
  · exact (configuration_setters_validate 40 5 200 250 16 10 0).2.1 (by norm_num)
  · exact (configuration_setters_validate 40 5 200 250 16 10
      (-1)).2.2.2.2.2.2.2.2.2.2.2.2.2.1 (by norm_num)

/-- Claim C8: the frame callback of the scroll handler recomputes the range
and updates the last-computed offset exactly when the absolute offset delta
strictly exceeds the gating threshold — half a row extent for
`total ≤ 100000`, a full row extent for `total > 100000`; below the
threshold the state (range and last offset) is unchanged. -/
theorem handleScrollFrame_gating
    (rowHeight containerHeight : ℚ) (overscan totalRows : ℤ)
    (s : TableVirtualizer.ScrollState) (scrollTop : ℚ) :
    ((TableVirtualizer.handleScrollFrame rowHeight containerHeight overscan totalRows
          s scrollTop).2 = true ↔
        (if 100000 < totalRows then rowHeight else rowHeight / 2)
          < |scrollTop - s.lastScrollTop|) ∧
    (¬ (if 100000 < totalRows then rowHeight else rowHeight / 2)
          < |scrollTop - s.lastScrollTop| →
        TableVirtualizer.handleScrollFrame rowHeight containerHeight overscan totalRows
            s scrollTop = (s, false)) ∧
    ((if 100000 < totalRows then rowHeight else rowHeight / 2)
          < |scrollTop - s.lastScrollTop| →
        (TableVirtualizer.handleScrollFrame rowHeight containerHeight overscan totalRows
            s scrollTop).1.lastScrollTop = scrollTop ∧
        (TableVirtualizer.handleScrollFrame rowHeight containerHeight overscan totalRows
            s scrollTop).1.visibleRange
          = TableVirtualizer.calculateVisibleRange rowHeight containerHeight overscan
              totalRows scrollTop) := by
  by_cases h : (if 100000 < totalRows then rowHeight else rowHeight / 2)
      < |scrollTop - s.lastScrollTop|
  · simp [TableVirtualizer.handleScrollFrame, h]
  · simp [TableVirtualizer.handleScrollFrame, h]

/-- Witness for C8: with a zero offset delta on a 100-row table the frame
callback leaves the state untouched and reports no recomputation. -/
theorem handleScrollFrame_gating_witness :
    TableVirtualizer.handleScrollFrame 40 400 5 100 ⟨0, ⟨0, 0⟩⟩ 0 = (⟨0, ⟨0, 0⟩⟩, false) :=
  (handleScrollFrame_gating 40 400 5 100 ⟨0, ⟨0, 0⟩⟩ 0).2.1 (by norm_num)

/-- Claim C4 counterexample: `scrollToRow(150, 'start')` on a 100-row table
(rowHeight 40, container 400, current offset 0) is a no-op — the source
returns early on an out-of-range index — whereas the clamping behaviour the
claim describes would clamp the index to 99 and scroll to offset 3600. -/
theorem scrollToRow_out_of_range_counterexample :
    TableVirtualizer.scrollToRow 100 40 400 0 150 ScrollPosition.start = 0 ∧
    TableVirtualizer.scrollToRowSpecClamped 100 40 400 150 ScrollPosition.start = 3600 ∧
    (0 : ℚ) ≠ 3600 := by
  refine ⟨?_, ?_, by norm_num⟩
  · norm_num [TableVirtualizer.scrollToRow]
  · norm_num [TableVirtualizer.scrollToRowSpecClamped, min_def, max_def]

/-- Claim C4 (amended): an out-of-range index makes `scrollToRow` /
`scrollToCard` a no-op (the current scroll offset is returned unchanged, no
clamping of the index); for an in-range index the alignment offset is
computed and clamped to `[0, max(0, maxScrollOffset)]`. -/
theorem scrollTo_noop_or_clamped
    (totalRows totalCards columnsPerRow idx : ℤ)
    (rowHeight containerHeight currentScrollTop : ℚ)
    (heightCache : List (ℤ × ℚ)) (gap estimatedCardHeight : ℚ)
    (position : ScrollPosition) :
    (idx < 0 ∨ totalRows ≤ idx →
      TableVirtualizer.scrollToRow totalRows rowHeight containerHeight currentScrollTop
          idx position = currentScrollTop) ∧
    (0 ≤ idx → idx < totalRows →
      0 ≤ TableVirtualizer.scrollToRow totalRows rowHeight containerHeight currentScrollTop
            idx position ∧
      TableVirtualizer.scrollToRow totalRows rowHeight containerHeight currentScrollTop
            idx position
        ≤ TableVirtualizer.maxScrollFixed rowHeight containerHeight totalRows) ∧
    (idx < 0 ∨ totalCards ≤ idx →
      GridVirtualizer.scrollToCard heightCache totalCards columnsPerRow gap
          estimatedCardHeight containerHeight currentScrollTop idx position
        = currentScrollTop) ∧
    (0 ≤ idx → idx < totalCards →
      0 ≤ GridVirtualizer.scrollToCard heightCache totalCards columnsPerRow gap
            estimatedCardHeight containerHeight currentScrollTop idx position ∧
      GridVirtualizer.scrollToCard heightCache totalCards columnsPerRow gap
            estimatedCardHeight containerHeight currentScrollTop idx position
        ≤ GridVirtualizer.maxScrollGrid totalCards columnsPerRow
            (GridVirtualizer.getAverageRowHeight heightCache columnsPerRow gap
              estimatedCardHeight) containerHeight) := by
  refine ⟨?_, ?_, ?_, ?_⟩
  · intro h
    simp only [TableVirtualizer.scrollToRow, if_pos h]
  · intro hlo hhi
    rw [TableVirtualizer.scrollToRow.eq_def, if_neg (by omega)]
    exact ⟨le_max_left _ _, max_le_max le_rfl (min_le_right _ _)⟩
  · intro h
    simp only [GridVirtualizer.scrollToCard, if_pos h]
  · intro hlo hhi
    rw [GridVirtualizer.scrollToCard.eq_def, if_neg (by omega)]
    exact ⟨le_max_left _ _, max_le_max le_rfl (min_le_right _ _)⟩

/-- Witness for the amended C4: an out-of-range `scrollToRow(150)` keeps the
current offset 7, and an in-range `scrollToCard(42, 'center')` yields a
nonnegative offset. -/
theorem scrollTo_noop_or_clamped_witness :
    TableVirtualizer.scrollToRow 100 40 400 7 150 ScrollPosition.start = 7 ∧
    0 ≤ GridVirtualizer.scrollToCard [] 100 3 16 200 400 7 42 ScrollPosition.center := by
  constructor
  · exact (scrollTo_noop_or_clamped 100 100 3 150 40 400 7 [] 16 200
      ScrollPosition.start).1 (by omega)
  · exact ((scrollTo_noop_or_clamped 100 100 3 42 40 400 7 [] 16 200
      ScrollPosition.center).2.2.2 (by omega) (by omega)).1

/-- Claim C9 counterexample: with `gap = 0` (a value `setGap` accepts) and a
single cached extent of 0, the cache is non-empty yet `getAverageRowHeight`
returns the fallback `estimatedCardHeight + gap = 200` instead of the group
average 0, because `average || fallback` treats the zero average as falsy. -/
theorem getAverageRowHeight_zero_average_counterexample :
    GridVirtualizer.getAverageRowHeight [((0 : ℤ), (0 : ℚ))] 3 0 200 = 200 ∧
    GridVirtualizer.rowGroupAverage 3 0 [(0 : ℚ)] = 0 ∧
    (200 : ℚ) ≠ 0 := by
  have hg : GridVirtualizer.rowGroupHeights 3 0 [(0 : ℚ)] 0 0 = [0] := by
    norm_num [GridVirtualizer.rowGroupHeights]
  have ha : GridVirtualizer.rowGroupAverage 3 0 [(0 : ℚ)] = 0 := by
    rw [GridVirtualizer.rowGroupAverage, hg]
    norm_num
  have hne : ([((0 : ℤ), (0 : ℚ))] : List (ℤ × ℚ)) ≠ [] := by simp
  have hmap : (([((0 : ℤ), (0 : ℚ))] : List (ℤ × ℚ)).map Prod.snd) = [(0 : ℚ)] := by simp
  refine ⟨?_, ha, by norm_num⟩
  simp only [GridVirtualizer.getAverageRowHeight, if_neg hne, hmap, if_pos ha]
  norm_num

/-- Claim C9 (amended): with the cache empty, `getAverageRowHeight` returns
`estimatedCardHeight + gap` (whatever `columnsPerRow`); with a non-empty
cache of nonnegative extents and a positive `gap`, it returns the average
over consecutive groups of `columnsPerRow` cached extents of (group max +
gap), which is positive — only a zero average (possible only with
`gap = 0`) also falls back. -/
theorem getAverageRowHeight_spec
    (heightCache : List (ℤ × ℚ)) (columnsPerRow : ℤ) (gap estimatedCardHeight : ℚ)
    (hne : heightCache ≠ []) (hgap : 0 < gap) (hnn : ∀ p ∈ heightCache, 0 ≤ p.2) :
    GridVirtualizer.getAverageRowHeight [] columnsPerRow gap estimatedCardHeight
        = estimatedCardHeight + gap ∧
    GridVirtualizer.getAverageRowHeight heightCache columnsPerRow gap estimatedCardHeight
        = GridVirtualizer.rowGroupAverage columnsPerRow gap (heightCache.map Prod.snd) ∧
    0 < GridVirtualizer.getAverageRowHeight heightCache columnsPerRow gap
        estimatedCardHeight := by
  have hmne : heightCache.map Prod.snd ≠ [] := by
    simpa using hne
  have hall : ∀ x ∈ heightCache.map Prod.snd, 0 ≤ x := by
    intro x hx
    rcases List.mem_map.mp hx with ⟨p, hp, rfl⟩
    exact hnn p hp
  have hpos : 0 < GridVirtualizer.rowGroupAverage columnsPerRow gap
      (heightCache.map Prod.snd) := by
    rw [GridVirtualizer.rowGroupAverage]
    apply div_pos
    · exact List.sum_pos _
        (fun y hy => lt_of_lt_of_le hgap
          (rowGroupHeights_ge_gap columnsPerRow gap _ 0 0 le_rfl hall y hy))
        (rowGroupHeights_ne_nil columnsPerRow gap _ 0 0 le_rfl (Or.inl hmne))
    · exact_mod_cast List.length_pos.mpr
        (rowGroupHeights_ne_nil columnsPerRow gap _ 0 0 le_rfl (Or.inl hmne))
  have h2 : GridVirtualizer.getAverageRowHeight heightCache columnsPerRow gap
      estimatedCardHeight
      = GridVirtualizer.rowGroupAverage columnsPerRow gap (heightCache.map Prod.snd) := by
    simp only [GridVirtualizer.getAverageRowHeight, if_neg hne, if_neg hpos.ne']
  refine ⟨by simp [GridVirtualizer.getAverageRowHeight], h2, ?_⟩
  rw [h2]
  exact hpos

/-- Witness for the amended C9: one cached extent of 100 with gap 16 yields
the (positive) single-group average. -/
theorem getAverageRowHeight_spec_witness :
    GridVirtualizer.getAverageRowHeight [((0 : ℤ), (100 : ℚ))] 3 16 200
      = GridVirtualizer.rowGroupAverage 3 16
          (([((0 : ℤ), (100 : ℚ))] : List (ℤ × ℚ)).map Prod.snd) ∧
    0 < GridVirtualizer.getAverageRowHeight [((0 : ℤ), (100 : ℚ))] 3 16 200 := by
  have h := getAverageRowHeight_spec [((0 : ℤ), (100 : ℚ))] 3 16 200 (by simp) (by norm_num)
    (by
      intro p hp
      rcases List.mem_singleton.mp hp with rfl
      norm_num)
  exact ⟨h.2.1, h.2.2⟩

/-- Claim C2: for every scroll offset in `[0, maxScroll]` with positive item
extent (positive average row extent in adaptive mode), positive container
extent, nonnegative overscan and nonnegative total, the computed range
satisfies `0 ≤ start ≤ end ≤ total` — in fixed (table) mode and in adaptive
(grid) mode. -/
theorem visibleRange_invariant
    (rowHeight containerHeight scrollTop : ℚ) (overscan totalRows : ℤ)
    (heightCache : List (ℤ × ℚ)) (columnsPerRow gOverscan totalCards : ℤ)
    (gap estimatedCardHeight gContainerHeight gScrollTop : ℚ)
    (h1 : 0 < rowHeight) (h2 : 0 < containerHeight) (h3 : 0 ≤ overscan)
    (h4 : 0 ≤ totalRows) (h5 : 0 ≤ scrollTop)
    (h6 : scrollTop ≤ TableVirtualizer.maxScrollFixed rowHeight containerHeight totalRows)
    (g1 : 0 < GridVirtualizer.getAverageRowHeight heightCache columnsPerRow gap
        estimatedCardHeight)
    (g2 : 0 < gContainerHeight) (g3 : 0 ≤ gOverscan) (g4 : 0 ≤ totalCards)
    (g5 : 1 ≤ columnsPerRow) (g6 : 0 ≤ gScrollTop)
    (g7 : gScrollTop ≤ GridVirtualizer.maxScrollGrid totalCards columnsPerRow
        (GridVirtualizer.getAverageRowHeight heightCache columnsPerRow gap
          estimatedCardHeight) gContainerHeight) :
    (0 ≤ (TableVirtualizer.calculateVisibleRange rowHeight containerHeight overscan
            totalRows scrollTop).start ∧
      (TableVirtualizer.calculateVisibleRange rowHeight containerHeight overscan
            totalRows scrollTop).start
        ≤ (TableVirtualizer.calculateVisibleRange rowHeight containerHeight overscan
            totalRows scrollTop).stop ∧
      (TableVirtualizer.calculateVisibleRange rowHeight containerHeight overscan
            totalRows scrollTop).stop ≤ totalRows) ∧
    (0 ≤ (GridVirtualizer.calculateVisibleRange heightCache columnsPerRow gap
            estimatedCardHeight gContainerHeight gOverscan totalCards gScrollTop).start ∧
      (GridVirtualizer.calculateVisibleRange heightCache columnsPerRow gap
            estimatedCardHeight gContainerHeight gOverscan totalCards gScrollTop).start
        ≤ (GridVirtualizer.calculateVisibleRange heightCache columnsPerRow gap
            estimatedCardHeight gContainerHeight gOverscan totalCards gScrollTop).stop ∧
      (GridVirtualizer.calculateVisibleRange heightCache columnsPerRow gap
            estimatedCardHeight gContainerHeight gOverscan totalCards gScrollTop).stop
          ≤ totalCards) := by
  constructor
  · have hsI : 0 ≤ ⌊scrollTop / rowHeight⌋ := floor_div_nonneg _ _ h1 h5
    have hvc : 0 < ⌈containerHeight / rowHeight⌉ := ceil_div_pos _ _ h1 h2
    have hb := fixed_floor_bound rowHeight containerHeight scrollTop totalRows h1 h2 h5 h6
    refine ⟨le_max_left _ _, ?_, min_le_left _ _⟩
    show max 0 (⌊scrollTop / rowHeight⌋ - overscan)
        ≤ min totalRows
            (⌊scrollTop / rowHeight⌋ + ⌈containerHeight / rowHeight⌉ + overscan)
    rcases hb with h0 | hle <;> omega
  · have hsR : 0 ≤ ⌊gScrollTop / GridVirtualizer.getAverageRowHeight heightCache
        columnsPerRow gap estimatedCardHeight⌋ := floor_div_nonneg _ _ g1 g6
    have hvR : 0 < ⌈gContainerHeight / GridVirtualizer.getAverageRowHeight heightCache
        columnsPerRow gap estimatedCardHeight⌉ := ceil_div_pos _ _ g1 g2
    have hb := grid_floor_bound
      (GridVirtualizer.getAverageRowHeight heightCache columnsPerRow gap estimatedCardHeight)
      gContainerHeight gScrollTop totalCards columnsPerRow g1 g2 g5 g6 g7
    have hP : ⌊gScrollTop / GridVirtualizer.getAverageRowHeight heightCache columnsPerRow
        gap estimatedCardHeight⌋ * columnsPerRow ≤ totalCards := by
      rcases hb with h0 | hle
      · rw [h0, zero_mul]
        exact g4
      · exact hle
    have hc0 : (0 : ℤ) ≤ columnsPerRow := by omega
    have hQ : 0 ≤ (⌊gScrollTop / GridVirtualizer.getAverageRowHeight heightCache
          columnsPerRow gap estimatedCardHeight⌋
        + (⌈gContainerHeight / GridVirtualizer.getAverageRowHeight heightCache
            columnsPerRow gap estimatedCardHeight⌉ + 2)) * columnsPerRow :=
      mul_nonneg (by omega) hc0
    have hPQ : ⌊gScrollTop / GridVirtualizer.getAverageRowHeight heightCache columnsPerRow
          gap estimatedCardHeight⌋ * columnsPerRow
        ≤ (⌊gScrollTop / GridVirtualizer.getAverageRowHeight heightCache columnsPerRow
              gap estimatedCardHeight⌋
            + (⌈gContainerHeight / GridVirtualizer.getAverageRowHeight heightCache
                columnsPerRow gap estimatedCardHeight⌉ + 2)) * columnsPerRow :=
      mul_le_mul_of_nonneg_right (by omega) hc0
    refine ⟨le_max_left _ _, ?_, min_le_left _ _⟩
    show max 0 (⌊gScrollTop / GridVirtualizer.getAverageRowHeight heightCache columnsPerRow
            gap estimatedCardHeight⌋ * columnsPerRow - gOverscan)
        ≤ min totalCards
            ((⌊gScrollTop / GridVirtualizer.getAverageRowHeight heightCache columnsPerRow
                gap estimatedCardHeight⌋
              + (⌈gContainerHeight / GridVirtualizer.getAverageRowHeight heightCache
                  columnsPerRow gap estimatedCardHeight⌉ + 2)) * columnsPerRow + gOverscan)
    apply max_le
    · exact le_min g4 (by linarith)
    · exact le_min (by linarith) (by linarith)

/-- Witness for C2: at scroll offset 0 both the 100-row fixed-mode range and
the 100-card adaptive-mode range (empty cache) satisfy the invariant. -/
theorem visibleRange_invariant_witness :
    (0 ≤ (TableVirtualizer.calculateVisibleRange 40 400 5 100 0).start ∧
      (TableVirtualizer.calculateVisibleRange 40 400 5 100 0).start
        ≤ (TableVirtualizer.calculateVisibleRange 40 400 5 100 0).stop ∧
      (TableVirtualizer.calculateVisibleRange 40 400 5 100 0).stop ≤ 100) ∧
    (0 ≤ (GridVirtualizer.calculateVisibleRange [] 3 16 200 400 10 100 0).start ∧
      (GridVirtualizer.calculateVisibleRange [] 3 16 200 400 10 100 0).start
        ≤ (GridVirtualizer.calculateVisibleRange [] 3 16 200 400 10 100 0).stop ∧
      (GridVirtualizer.calculateVisibleRange [] 3 16 200 400 10 100 0).stop ≤ 100) :=
  visibleRange_invariant 40 400 0 5 100 [] 3 10 100 16 200 400 0
    (by norm_num) (by norm_num) (by norm_num) (by norm_num) (by norm_num)
    (le_max_left _ _)
    (by norm_num [GridVirtualizer.getAverageRowHeight])
    (by norm_num) (by norm_num) (by norm_num) (by norm_num) (by norm_num)
    (le_max_left _ _)

/-- Claim C6: for every scroll offset in `[0, maxScroll]` in fixed mode, the
computed window is at least `min(total, viewportCapacity)` items wide, with
`viewportCapacity = ceil(containerExtent / itemExtent)` — the window always
covers the visible viewport. -/
theorem visibleRange_covers_viewport
    (rowHeight containerHeight scrollTop : ℚ) (overscan totalRows : ℤ)
    (h1 : 0 < rowHeight) (h2 : 0 < containerHeight) (h3 : 0 ≤ overscan)
    (h4 : 0 ≤ totalRows) (h5 : 0 ≤ scrollTop)
    (h6 : scrollTop ≤ TableVirtualizer.maxScrollFixed rowHeight containerHeight totalRows) :
    min totalRows ⌈containerHeight / rowHeight⌉
      ≤ (TableVirtualizer.calculateVisibleRange rowHeight containerHeight overscan
            totalRows scrollTop).stop
        - (TableVirtualizer.calculateVisibleRange rowHeight containerHeight overscan
            totalRows scrollTop).start := by
  have hsI : 0 ≤ ⌊scrollTop / rowHeight⌋ := floor_div_nonneg _ _ h1 h5
  have hvc : 0 < ⌈containerHeight / rowHeight⌉ := ceil_div_pos _ _ h1 h2
  have hb := fixed_floor_bound rowHeight containerHeight scrollTop totalRows h1 h2 h5 h6
  show min totalRows ⌈containerHeight / rowHeight⌉
      ≤ min totalRows (⌊scrollTop / rowHeight⌋ + ⌈containerHeight / rowHeight⌉ + overscan)
        - max 0 (⌊scrollTop / rowHeight⌋ - overscan)
  rcases hb with h0 | hle <;> omega

/-- Witness for C6: at scroll offset 0 on a 100-row table with row height 40
and container 400, the window is at least `min(100, ceil(400/40))` rows. -/
theorem visibleRange_covers_viewport_witness :
    min (100 : ℤ) ⌈(400 : ℚ) / 40⌉
      ≤ (TableVirtualizer.calculateVisibleRange 40 400 5 100 0).stop
        - (TableVirtualizer.calculateVisibleRange 40 400 5 100 0).start :=
  visibleRange_covers_viewport 40 400 0 5 100
    (by norm_num) (by norm_num) (by norm_num) (by norm_num) (by norm_num)
    (le_max_left _ _)

end SwivelGrid
